import Mathlib

/-!
Verification development for the SkateHive account-manager service.

The definitions below are a shallow embedding of the TypeScript source:

* `src/lib/key-generation.ts` — deterministic key derivation from a master
  password (`generateAccountKeys`, `validateMasterPassword`).
* `src/lib/session-storage.ts` — the in-memory reservation (session) store
  (`createAccountSession`, `getAccountSession`, `markSessionAsUsed`,
  `validateSessionKeys`, `cleanupExpiredSessions`).
* `src/lib/emergency-storage.ts` — the file-based emergency key escrow
  (`storeEmergencyKeys`, `retrieveEmergencyKeys`, `markKeysAsDelivered`).
* `src/routes/accounts.ts` — the `/create-claimed-account` and
  `/prepare-account` route handlers.

Effects are made explicit: the session map is an association list threaded
through every operation, `Date.now()` is a `Nat` parameter, the random bytes
backing `generateMasterPassword` and `randomUUID` are explicit parameters,
the filesystem backing the emergency cache is a list of records together with
a fault flag, and the ledger broadcast is an `Except` parameter.  The
cryptographic primitives (node `crypto` sha256 and dhive key pairs) live in
external libraries, outside this repository, so the development is parametric
in a `Crypto` bundle of those functions.
-/

set_option maxRecDepth 8192

namespace AccountManager

/-! ### Key derivation engine (`src/lib/key-generation.ts`) -/

/-- External cryptographic primitives used by `key-generation.ts`:
`sha256hex` is node crypto `createHash('sha256').update(s).digest('hex')`;
`fromSeed` is dhive `PrivateKey.fromSeed` (seed string to key material);
`wif` is `PrivateKey.toString()`; `pubOf` is `createPublic().toString()`.
These are external-library calls, so definitions take them as parameters. -/
structure Crypto where
  sha256hex : String → String
  fromSeed : String → String
  wif : String → String
  pubOf : String → String

/-- The four role public keys (`GeneratedPubKeys` in `key-generation.ts`). -/
structure GeneratedPubKeys where
  owner : String
  active : String
  posting : String
  memo : String
deriving DecidableEq, Repr

/-- The four role private keys plus the master password
(`GeneratedKeys` in `key-generation.ts`). -/
structure GeneratedKeys where
  owner : String
  active : String
  posting : String
  memo : String
  master_password : String
deriving DecidableEq, Repr

/-- `generateMasterPassword`: `'P' + randomBytes(32).toString('hex').substring(0, 50)`.
The random bytes arrive already hex-encoded as `randHex`. -/
def generateMasterPassword (randHex : String) : String :=
  "P" ++ randHex.take 50

/-- `derivePrivateKey`: seed is the concatenation of master password, username
and role; it is sha256-hashed and fed to `PrivateKey.fromSeed`. -/
def derivePrivateKey (c : Crypto) (masterPassword username role : String) : String :=
  c.fromSeed (c.sha256hex (masterPassword ++ username ++ role))

/-- The JS expression `masterPassword || generateMasterPassword()`:
`undefined` and the empty string are both falsy, so both select the freshly
generated random password. -/
def resolveMaster (masterPassword : Option String) (randHex : String) : String :=
  match masterPassword with
  | none => generateMasterPassword randHex
  | some s => if s = "" then generateMasterPassword randHex else s

/-- `generateAccountKeys(username, masterPassword?)` from `key-generation.ts`. -/
def generateAccountKeys (c : Crypto) (username : String)
    (masterPassword : Option String) (randHex : String) :
    GeneratedKeys × GeneratedPubKeys :=
  let master := resolveMaster masterPassword randHex
  let ownerKey := derivePrivateKey c master username "owner"
  let activeKey := derivePrivateKey c master username "active"
  let postingKey := derivePrivateKey c master username "posting"
  let memoKey := derivePrivateKey c master username "memo"
  ({ owner := c.wif ownerKey, active := c.wif activeKey,
     posting := c.wif postingKey, memo := c.wif memoKey,
     master_password := master },
   { owner := c.pubOf ownerKey, active := c.pubOf activeKey,
     posting := c.pubOf postingKey, memo := c.pubOf memoKey })

/-- `validateMasterPassword(username, masterPassword, expectedPubkeys)`:
re-derives the bundle and compares all four public keys.  (The source wraps
the body in try/catch, but none of the called operations can throw: sha256 of
a string and `fromSeed` are total.)  `randHex` models the random fallback the
inner `generateAccountKeys` call would draw. -/
def validateMasterPassword (c : Crypto) (username masterPassword : String)
    (randHex : String) (expectedPubkeys : GeneratedPubKeys) : Bool :=
  let pubkeys := (generateAccountKeys c username (some masterPassword) randHex).2
  pubkeys.owner == expectedPubkeys.owner &&
  pubkeys.active == expectedPubkeys.active &&
  pubkeys.posting == expectedPubkeys.posting &&
  pubkeys.memo == expectedPubkeys.memo

/-! ### Session store (`src/lib/session-storage.ts`) -/

/-- `AccountSession` from `session-storage.ts`. -/
structure AccountSession where
  sessionId : String
  username : String
  pubkeys : GeneratedPubKeys
  createdAt : Nat
  expiresAt : Nat
  used : Bool
  creatorAccount : String
deriving DecidableEq, Repr

/-- `SESSION_EXPIRY_MS = 15 * 60 * 1000`. -/
def SESSION_EXPIRY_MS : Nat := 15 * 60 * 1000

/-- The module-level `Map<string, AccountSession>`, as an association list. -/
abbrev SessionStore := List (String × AccountSession)

/-- `sessions.get(id)`. -/
def storeGet : SessionStore → String → Option AccountSession
  | [], _ => none
  | (k, v) :: rest, id => if k = id then some v else storeGet rest id

/-- `sessions.delete(id)`. -/
def storeErase (σ : SessionStore) (id : String) : SessionStore :=
  σ.filter (fun p => p.1 != id)

/-- `sessions.set(id, s)`: overwrite any existing binding. -/
def storeSet (σ : SessionStore) (id : String) (s : AccountSession) : SessionStore :=
  (id, s) :: storeErase σ id

/-- `createAccountSession(username, pubkeys, creatorAccount)`.  The
`randomUUID()` result and `Date.now()` are the `sessionId` and `now`
parameters.  (The `setTimeout` cleanup it schedules is modelled as the
separate `SessionOp.expire` operation.) -/
def createAccountSession (σ : SessionStore) (sessionId username : String)
    (pubkeys : GeneratedPubKeys) (creatorAccount : String) (now : Nat) :
    AccountSession × SessionStore :=
  let session : AccountSession :=
    { sessionId := sessionId, username := username, pubkeys := pubkeys,
      createdAt := now, expiresAt := now + SESSION_EXPIRY_MS,
      used := false, creatorAccount := creatorAccount }
  (session, storeSet σ sessionId session)

/-- `getAccountSession(sessionId)`: lazy expiry — an expired entry is deleted
and reported as absent. -/
def getAccountSession (σ : SessionStore) (sessionId : String) (now : Nat) :
    Option AccountSession × SessionStore :=
  match storeGet σ sessionId with
  | none => (none, σ)
  | some session =>
    if session.expiresAt < now then (none, storeErase σ sessionId)
    else (some session, σ)

/-- `markSessionAsUsed(sessionId)`: returns false if the session is absent,
already used, or expired; otherwise flips `used` to true and returns true. -/
def markSessionAsUsed (σ : SessionStore) (sessionId : String) (now : Nat) :
    Bool × SessionStore :=
  match storeGet σ sessionId with
  | none => (false, σ)
  | some session =>
    if session.used = true ∨ session.expiresAt < now then (false, σ)
    else (true, storeSet σ sessionId { session with used := true })

/-- The four-way key comparison from `validateSessionKeys`. -/
def pubkeysMatch (a b : GeneratedPubKeys) : Bool :=
  a.owner == b.owner && a.active == b.active &&
  a.posting == b.posting && a.memo == b.memo

/-- `validateSessionKeys(sessionId, providedPubkeys)`: reads the session via
`getAccountSession` (so absent or expired gives false) and compares the four
stored public keys with the provided ones.  Note the `used` flag is not
consulted here. -/
def validateSessionKeys (σ : SessionStore) (sessionId : String)
    (providedPubkeys : GeneratedPubKeys) (now : Nat) : Bool × SessionStore :=
  match getAccountSession σ sessionId now with
  | (none, σ') => (false, σ')
  | (some session, σ') => (pubkeysMatch session.pubkeys providedPubkeys, σ')

/-- `cleanupExpiredSessions()`: removes expired entries, returning the count. -/
def cleanupExpiredSessions (σ : SessionStore) (now : Nat) : Nat × SessionStore :=
  let remaining := σ.filter (fun p => !(decide (p.2.expiresAt < now)))
  (σ.length - remaining.length, remaining)

/-- One call into the session-storage module; used to reason about arbitrary
interleavings of store operations.  `expire` models the `setTimeout` deletion
callbacks scheduled by `createAccountSession` and `markSessionAsUsed`. -/
inductive SessionOp where
  | create (sessionId username : String) (pubkeys : GeneratedPubKeys)
      (creatorAccount : String) (now : Nat)
  | get (sessionId : String) (now : Nat)
  | markUsed (sessionId : String) (now : Nat)
  | validateKeys (sessionId : String) (pubkeys : GeneratedPubKeys) (now : Nat)
  | cleanup (now : Nat)
  | expire (sessionId : String)
deriving DecidableEq, Repr

/-- State effect of one session-storage call. -/
def applyOp (op : SessionOp) (σ : SessionStore) : SessionStore :=
  match op with
  | .create id u pk cr t => (createAccountSession σ id u pk cr t).2
  | .get id t => (getAccountSession σ id t).2
  | .markUsed id t => (markSessionAsUsed σ id t).2
  | .validateKeys id pk t => (validateSessionKeys σ id pk t).2
  | .cleanup t => (cleanupExpiredSessions σ t).2
  | .expire id => storeErase σ id

/-- Run a sequence of session-storage calls. -/
def runOps : List SessionOp → SessionStore → SessionStore
  | [], σ => σ
  | op :: ops, σ => runOps ops (applyOp op σ)

/-- `randomUUID()` uniqueness assumption: no create in the run reuses `id`. -/
def avoidsCreate (ops : List SessionOp) (id : String) : Bool :=
  ops.all fun op =>
    match op with
    | .create id2 _ _ _ _ => id2 != id
    | _ => true

/-- The reservation at `id` is consumed: every binding of the store whose
key is `id` carries `used = true` (in particular an absent id is consumed). -/
def consumedAll (σ : SessionStore) (id : String) : Bool :=
  σ.all fun p => p.1 != id || p.2.used

/-! ### Emergency recovery cache (`src/lib/emergency-storage.ts`) -/

/-- A set of four role-scoped key strings (used for both the `keys` and the
request-supplied `private_keys` objects). -/
structure KeySet where
  owner : String
  active : String
  posting : String
  memo : String
deriving DecidableEq, Repr

/-- Status field of a stored emergency record. -/
inductive RecStatus where
  | created
  | delivered
  | expired
deriving DecidableEq, Repr

/-- `StoredAccountKeys` from `emergency-storage.ts` (the metadata-only
`requestInfo` and duplicate `timestamp` string are elided). -/
structure StoredAccountKeys where
  accountName : String
  transactionId : String
  createdAt : Nat
  keys : KeySet
  publicKeys : GeneratedPubKeys
  status : RecStatus
deriving DecidableEq, Repr

/-- The `emergency-recovery` directory: one record per file.  Each write uses
a fresh timestamped filename, and reads sort newest-first, so the list is
kept newest-first. -/
abbrev EmergencyCache := List StoredAccountKeys

/-- The raw `writeFileSync` inside `storeEmergencyKeys`: the `fault` flag
models an internal I/O failure, which surfaces as an exception here. -/
def writeEmergencyFile (cache : EmergencyCache) (fault : Bool)
    (rec : StoredAccountKeys) : Except String EmergencyCache :=
  if fault then .error "EACCES" else .ok (rec :: cache)

/-- `storeEmergencyKeys(...)`: the whole body is wrapped in try/catch and a
failure is logged and swallowed, so the function never raises — its type has
no error channel. -/
def storeEmergencyKeys (cache : EmergencyCache) (fault : Bool)
    (rec : StoredAccountKeys) : EmergencyCache :=
  match writeEmergencyFile cache fault rec with
  | .ok cache' => cache'
  | .error _ => cache

/-- `retrieveEmergencyKeys(accountName)`: most recent record for the subject. -/
def retrieveEmergencyKeys (cache : EmergencyCache) (accountName : String) :
    Option StoredAccountKeys :=
  cache.find? fun r => r.accountName == accountName

/-- `markKeysAsDelivered(accountName, transactionId)`: loads the most recent
record for the subject and, if its transaction id matches, rewrites it with
status `delivered`. -/
def markKeysAsDelivered : EmergencyCache → String → String → EmergencyCache
  | [], _, _ => []
  | r :: rest, accountName, transactionId =>
    if r.accountName == accountName then
      if r.transactionId == transactionId then
        { r with status := .delivered } :: rest
      else r :: rest
    else r :: markKeysAsDelivered rest accountName transactionId

/-! ### Route handlers (`src/routes/accounts.ts`) -/

/-- A Hive authority object (weight threshold, account auths, key auths). -/
structure Authority where
  weight_threshold : Int
  account_auths : List (String × Int)
  key_auths : List (String × Int)
deriving DecidableEq, Repr

/-- A schema-validated `/create-claimed-account` request body
(`createClaimedAccountSchema` in `validators.ts`). -/
structure CreateClaimedAccountRequest where
  session_id : Option String
  confirmed : Option Bool
  new_account_name : String
  owner : Authority
  active : Authority
  posting : Authority
  memo_key : String
  json_metadata : String
  private_keys : Option KeySet
deriving DecidableEq, Repr

/-- Typed outcome of the `/create-claimed-account` handler; each constructor
corresponds to one JSON response shape produced by the route. -/
inductive CreateResp where
  | invalidSession
  | sessionAlreadyUsed
  | sessionMismatch
  | keyMismatch
  | sessionError
  | nameTaken
  | success (txId : String)
  | noClaimedAccounts (msg : String)
  | nameTakenHive (msg : String)
  | blockchainError (msg : String)
deriving DecidableEq, Repr

/-- The observable HTTP response for each outcome: status code, `error` field
and `message` field, with the literal strings from `accounts.ts`. -/
def respBody : CreateResp → Nat × String × String
  | .invalidSession =>
    (400, "Invalid Session", "Session not found or expired. Please generate keys again.")
  | .sessionAlreadyUsed =>
    (400, "Session Already Used", "This session has already been used to create an account.")
  | .sessionMismatch =>
    (400, "Session Mismatch", "Account name does not match the prepared session.")
  | .keyMismatch =>
    (400, "Key Mismatch", "Provided public keys do not match the prepared session.")
  | .sessionError =>
    (400, "Session Error", "Failed to mark session as used. Session may be expired or already used.")
  | .nameTaken =>
    (400, "Validation Error", "Account name is already taken")
  | .success _ =>
    (201, "", "Account created successfully")
  | .noClaimedAccounts _ =>
    (502, "No Claimed Accounts", "Creator has no claimed account credits available. Please claim an account first.")
  | .nameTakenHive _ =>
    (400, "Validation Error", "Account name is already taken")
  | .blockchainError _ =>
    (502, "Blockchain Error", "Failed to create account on Hive blockchain")

/-- JS `s.includes(pat)` for a non-empty pattern. -/
def strContains (s pat : String) : Bool :=
  (s.splitOn pat).length != 1

/-- The catch-block classification of a broadcast error message in the
`/create-claimed-account` route. -/
def handleHiveError (msg : String) : CreateResp :=
  if strContains msg "no claimed accounts" || strContains msg "pending claimed accounts" then
    .noClaimedAccounts msg
  else if strContains msg "already exists" || strContains msg "taken" then
    .nameTakenHive msg
  else
    .blockchainError msg

/-- `key_auths[0]?.[0] || ''` for each role, plus `memo_key`: the public keys
the handler extracts from the submitted authorities. -/
def reqPubkeys (req : CreateClaimedAccountRequest) : GeneratedPubKeys :=
  { owner := ((req.owner.key_auths.head?.map Prod.fst).getD ""),
    active := ((req.active.key_auths.head?.map Prod.fst).getD ""),
    posting := ((req.posting.key_auths.head?.map Prod.fst).getD ""),
    memo := req.memo_key }

/-- The branch guard `validatedData.session_id && validatedData.confirmed`:
a string is truthy iff non-empty, an optional boolean is truthy iff present
and true. -/
def sessionBranchCond (req : CreateClaimedAccountRequest) : Bool :=
  (match req.session_id with
   | some sid => sid != ""
   | none => false) &&
  req.confirmed == some true

/-- The post-branch tail of the `/create-claimed-account` handler: broadcast
the operation; on success store an emergency copy when the request carries a
complete (all-truthy) `private_keys` object, then return the transaction id;
on error classify the upstream message. -/
def finishCreate (cache : EmergencyCache) (req : CreateClaimedAccountRequest)
    (broadcast : Except String String) (now : Nat) (fault : Bool) :
    CreateResp × EmergencyCache :=
  match broadcast with
  | .error msg => (handleHiveError msg, cache)
  | .ok txId =>
    let cache' :=
      match req.private_keys with
      | some pk =>
        if pk.owner != "" && pk.active != "" && pk.posting != "" && pk.memo != "" then
          storeEmergencyKeys cache fault
            { accountName := req.new_account_name, transactionId := txId,
              createdAt := now, keys := pk, publicKeys := reqPubkeys req,
              status := .created }
        else cache
      | none => cache
    (.success txId, cache')

/-- The `POST /create-claimed-account` handler.  `available` is the result of
the external `isAccountAvailable` call, `broadcast` the result of the
external `createClaimedAccount` broadcast, and `fault` an emergency-storage
I/O failure. -/
def createClaimedAccountRoute (σ : SessionStore) (cache : EmergencyCache)
    (req : CreateClaimedAccountRequest) (now : Nat) (available : Bool)
    (broadcast : Except String String) (fault : Bool) :
    CreateResp × SessionStore × EmergencyCache :=
  if sessionBranchCond req = true then
    match req.session_id with
    | none => (.invalidSession, σ, cache)
    | some sid =>
      match getAccountSession σ sid now with
      | (none, σ₁) => (.invalidSession, σ₁, cache)
      | (some session, σ₁) =>
        if session.used = true then (.sessionAlreadyUsed, σ₁, cache)
        else if session.username ≠ req.new_account_name then
          (.sessionMismatch, σ₁, cache)
        else
          let v := validateSessionKeys σ₁ sid (reqPubkeys req) now
          if v.1 = false then (.keyMismatch, v.2, cache)
          else
            let m := markSessionAsUsed v.2 sid now
            if m.1 = false then (.sessionError, m.2, cache)
            else
              let f := finishCreate cache req broadcast now fault
              (f.1, m.2, f.2)
  else
    if available = false then (.nameTaken, σ, cache)
    else
      let f := finishCreate cache req broadcast now fault
      (f.1, σ, f.2)

/-- A schema-validated `/prepare-account` request body. -/
structure PrepareAccountRequest where
  new_account_name : String
  creator_account : String
deriving DecidableEq, Repr

/-- Typed outcome of the `/prepare-account` handler. -/
inductive PrepareResp where
  | nameTaken
  | success (keys : GeneratedKeys) (pubkeys : GeneratedPubKeys)
      (session_id : String) (expires_at : Nat)
deriving DecidableEq, Repr

/-- The `POST /prepare-account` handler: availability check, key generation,
session creation, best-effort emergency escrow (try/catch with a logged
warning), then the success payload with keys, pubkeys and session id. -/
def prepareAccountRoute (σ : SessionStore) (cache : EmergencyCache)
    (req : PrepareAccountRequest) (now : Nat) (available : Bool)
    (c : Crypto) (randHex sid : String) (fault : Bool) :
    PrepareResp × SessionStore × EmergencyCache :=
  if available = false then (.nameTaken, σ, cache)
  else
    let kp := generateAccountKeys c req.new_account_name none randHex
    let s := createAccountSession σ sid req.new_account_name kp.2 req.creator_account now
    let cache' := storeEmergencyKeys cache fault
      { accountName := req.new_account_name,
        transactionId := "session-" ++ s.1.sessionId,
        createdAt := now,
        keys := { owner := kp.1.owner, active := kp.1.active,
                  posting := kp.1.posting, memo := kp.1.memo },
        publicKeys := kp.2, status := .created }
    (.success kp.1 kp.2 s.1.sessionId s.1.expiresAt, s.2, cache')

/-! ### Concrete fixtures for witnesses and counterexamples -/

/-- A concrete instantiation of the external crypto primitives, used to
evaluate the development on explicit inputs. -/
def idCrypto : Crypto :=
  { sha256hex := fun s => s, fromSeed := fun s => s,
    wif := fun s => s, pubOf := fun s => s }

/-! ### Helper lemmas -/

/-- Randomness is irrelevant to `generateAccountKeys` once a non-empty
master password is supplied. -/
lemma generateAccountKeys_rand_irrelevant (c : Crypto) (u m r r' : String)
    (h : m ≠ "") :
    generateAccountKeys c u (some m) r = generateAccountKeys c u (some m) r' := by
  simp [generateAccountKeys, resolveMaster, h]

/-- `pubkeysMatch` decides equality of key bundles. -/
lemma pubkeysMatch_iff (a b : GeneratedPubKeys) :
    pubkeysMatch a b = true ↔ a = b := by
  cases a; cases b
  simp [pubkeysMatch, Bool.and_eq_true, beq_iff_eq, GeneratedPubKeys.mk.injEq, and_assoc]

/-! ### Claim C4: seed handling in `generateAccountKeys` -/

/-- C4 (counterexample): called with the explicitly supplied empty-string
seed, `generateAccountKeys` does not fail; it silently substitutes the
freshly generated random master password (here drawn from hex bytes
`"abc123"`), contradicting the claim that a malformed seed yields an
`InvalidInput` failure and is never replaced by a random fallback. -/
theorem generateAccountKeys_empty_seed_substitutes :
    (generateAccountKeys idCrypto "testuser" (some "") "abc123").1.master_password
      = "Pabc123" ∧ ("Pabc123" : String) ≠ "" := by
  exact ⟨rfl, by decide⟩

/-- C4 (amended): `generateAccountKeys` has no failure path for the seed.
An omitted seed and an empty-string seed both silently select the freshly
generated random master password (JS `masterPassword || generateMasterPassword()`,
where the empty string is falsy), while any non-empty supplied seed is used
exactly as given. -/
theorem generateAccountKeys_seed_fallback (c : Crypto) (u r : String) :
    (generateAccountKeys c u none r).1.master_password = generateMasterPassword r ∧
    (generateAccountKeys c u (some "") r).1.master_password = generateMasterPassword r ∧
    ∀ m : String, m ≠ "" →
      (generateAccountKeys c u (some m) r).1.master_password = m := by
  refine ⟨rfl, rfl, fun m hm => ?_⟩
  simp [generateAccountKeys, resolveMaster, hm]

/-- Witness for C4 at concrete inputs. -/
theorem generateAccountKeys_seed_fallback_witness :
    (generateAccountKeys idCrypto "alice" none "r1").1.master_password
      = generateMasterPassword "r1" ∧
    (generateAccountKeys idCrypto "alice" (some "") "r1").1.master_password
      = generateMasterPassword "r1" ∧
    (generateAccountKeys idCrypto "alice" (some "seed1") "r1").1.master_password
      = "seed1" := by
  obtain ⟨h1, h2, h3⟩ := generateAccountKeys_seed_fallback idCrypto "alice" "r1"
  exact ⟨h1, h2, h3 "seed1" (by decide)⟩

/-! ### Claim C6: determinism of `generateAccountKeys` -/

/-- C6 (counterexample): with the supplied seed `""`, two calls that draw
different internal randomness (`"r1"` vs `"r2"`) produce different private
keys and different public keys, so derivation is not deterministic for every
supplied seed. -/
theorem generateAccountKeys_empty_seed_nondeterministic :
    (generateAccountKeys idCrypto "testuser" (some "") "r1").1
      ≠ (generateAccountKeys idCrypto "testuser" (some "") "r2").1 ∧
    (generateAccountKeys idCrypto "testuser" (some "") "r1").2
      ≠ (generateAccountKeys idCrypto "testuser" (some "") "r2").2 := by
  decide

/-- C6 (amended): for every subjectName and every non-empty supplied seed,
`generateAccountKeys` is deterministic — the result is independent of the
internal randomness, so two calls with identical `(subjectName, seed)`
inputs yield identical private keys and identical public keys. -/
theorem generateAccountKeys_deterministic (c : Crypto) (u m r r' : String)
    (h : m ≠ "") :
    generateAccountKeys c u (some m) r = generateAccountKeys c u (some m) r' :=
  generateAccountKeys_rand_irrelevant c u m r r' h

/-- Witness for C6 at concrete inputs. -/
theorem generateAccountKeys_deterministic_witness :
    generateAccountKeys idCrypto "alice" (some "seed1") "r1"
      = generateAccountKeys idCrypto "alice" (some "seed1") "r2" :=
  generateAccountKeys_deterministic idCrypto "alice" "seed1" "r1" "r2" (by decide)

/-! ### Claim C9: `validateMasterPassword` round-trip -/

/-- C9 (counterexample): for the seed `""`, `validateMasterPassword` rejects
the very public keys `generateAccountKeys` produced for that seed, because
each call silently substitutes its own random fallback (`"r1"` vs `"r2"`);
the claimed round-trip fails for that seed. -/
theorem validateMasterPassword_empty_seed_breaks_roundtrip :
    validateMasterPassword idCrypto "testuser" "" "r2"
      ((generateAccountKeys idCrypto "testuser" (some "") "r1").2) = false := by
  decide

/-- C9 (amended): for every subjectName and non-empty seed,
`validateMasterPassword` returns true exactly when the supplied public keys
equal the four public keys `generateAccountKeys` derives for that
subjectName and seed — in particular it returns false whenever any one of
the four expected keys differs. -/
theorem validateMasterPassword_roundtrip (c : Crypto) (u m r r' : String)
    (h : m ≠ "") (expected : GeneratedPubKeys) :
    validateMasterPassword c u m r' expected = true ↔
    expected = (generateAccountKeys c u (some m) r).2 := by
  have hr : generateAccountKeys c u (some m) r' = generateAccountKeys c u (some m) r :=
    generateAccountKeys_rand_irrelevant c u m r' r h
  simp only [validateMasterPassword, hr]
  generalize (generateAccountKeys c u (some m) r).2 = p
  cases p with
  | mk po pa pp pm =>
    cases expected with
    | mk eo ea ep em =>
      simp only [Bool.and_eq_true, beq_iff_eq, GeneratedPubKeys.mk.injEq]
      constructor
      · rintro ⟨⟨⟨h1, h2⟩, h3⟩, h4⟩
        exact ⟨h1.symm, h2.symm, h3.symm, h4.symm⟩
      · rintro ⟨h1, h2, h3, h4⟩
        exact ⟨⟨⟨h1.symm, h2.symm⟩, h3.symm⟩, h4.symm⟩

/-- Witness for C9 at concrete inputs. -/
theorem validateMasterPassword_roundtrip_witness :
    validateMasterPassword idCrypto "alice" "seed1" "r2"
      ((generateAccountKeys idCrypto "alice" (some "seed1") "r1").2) = true :=
  (validateMasterPassword_roundtrip idCrypto "alice" "seed1" "r1" "r2"
    (by decide) _).mpr rfl

/-! ### Session-store helper lemmas -/

/-- A successful lookup is a binding of the list. -/
lemma storeGet_mem {σ : SessionStore} {id : String} {s : AccountSession}
    (h : storeGet σ id = some s) : (id, s) ∈ σ := by
  induction σ with
  | nil => simp [storeGet] at h
  | cons p rest ih =>
    obtain ⟨k, v⟩ := p
    by_cases hk : k = id
    · subst hk
      simp [storeGet] at h
      subst h
      exact List.mem_cons_self _ _
    · simp [storeGet, hk] at h
      exact List.mem_cons_of_mem _ (ih h)

/-- Erasure keeps only bindings with a different key. -/
lemma storeErase_key_ne {σ : SessionStore} {id : String} {p : String × AccountSession}
    (hp : p ∈ storeErase σ id) : p.1 ≠ id := by
  have h := (List.mem_filter.mp hp).2
  simpa [bne_iff_ne] using h

/-- Looking up an erased key fails. -/
lemma storeGet_erase_self (σ : SessionStore) (id : String) :
    storeGet (storeErase σ id) id = none := by
  cases hg : storeGet (storeErase σ id) id with
  | none => rfl
  | some s => exact absurd rfl (storeErase_key_ne (storeGet_mem hg))

/-- Propositional reading of `consumedAll`. -/
lemma consumedAll_iff (σ : SessionStore) (id : String) :
    consumedAll σ id = true ↔ ∀ p ∈ σ, p.1 = id → p.2.used = true := by
  simp only [consumedAll, List.all_eq_true, Bool.or_eq_true, bne_iff_ne]
  constructor
  · intro h p hp hid
    rcases h p hp with h' | h'
    · exact absurd hid h'
    · exact h'
  · intro h p hp
    by_cases hid : p.1 = id
    · exact Or.inr (h p hp hid)
    · exact Or.inl hid

/-- If every binding at `id` is consumed, a lookup at `id` is consumed. -/
lemma consumedAll_storeGet {σ : SessionStore} {id : String} {s : AccountSession}
    (h : consumedAll σ id = true) (hg : storeGet σ id = some s) : s.used = true :=
  (consumedAll_iff σ id).mp h (id, s) (storeGet_mem hg) rfl

/-- Consuming a consumed (absent or used) reservation fails. -/
lemma markSessionAsUsed_consumed {σ : SessionStore} {id : String}
    (h : consumedAll σ id = true) (t : Nat) :
    (markSessionAsUsed σ id t).1 = false := by
  cases hg : storeGet σ id with
  | none => simp [markSessionAsUsed, hg]
  | some s =>
    have hu := consumedAll_storeGet h hg
    simp [markSessionAsUsed, hg, hu]

/-- Filtering preserves the consumed invariant. -/
lemma consumedAll_filter (σ : SessionStore) (id : String)
    (q : String × AccountSession → Bool) (h : consumedAll σ id = true) :
    consumedAll (σ.filter q) id = true := by
  rw [consumedAll_iff] at h ⊢
  intro p hp hid
  exact h p (List.mem_of_mem_filter hp) hid

/-- Erasing any key preserves the consumed invariant. -/
lemma consumedAll_erase {σ : SessionStore} {id : String}
    (h : consumedAll σ id = true) (id' : String) :
    consumedAll (storeErase σ id') id = true :=
  consumedAll_filter σ id _ h

/-- Setting a different key, or a used value, preserves the invariant. -/
lemma consumedAll_set {σ : SessionStore} {id : String}
    (h : consumedAll σ id = true) (k : String) (s : AccountSession)
    (hk : k ≠ id ∨ s.used = true) :
    consumedAll (storeSet σ k s) id = true := by
  rw [consumedAll_iff] at h ⊢
  intro p hp hid
  simp only [storeSet] at hp
  rcases List.mem_cons.mp hp with rfl | hp'
  · rcases hk with hk | hk
    · exact absurd hid hk
    · exact hk
  · exact h p (List.mem_of_mem_filter hp') hid

/-- Writing a used record at `id` establishes the invariant at `id`. -/
lemma consumedAll_storeSet_self (σ : SessionStore) (id : String)
    (s : AccountSession) (hs : s.used = true) :
    consumedAll (storeSet σ id s) id = true := by
  rw [consumedAll_iff]
  intro p hp hid
  simp only [storeSet] at hp
  rcases List.mem_cons.mp hp with rfl | hp'
  · exact hs
  · exact absurd hid (storeErase_key_ne hp')

/-- The session-storage state after `validateSessionKeys` is exactly the
state after its inner `getAccountSession`. -/
lemma validateSessionKeys_state (σ : SessionStore) (id : String)
    (pk : GeneratedPubKeys) (t : Nat) :
    (validateSessionKeys σ id pk t).2 = (getAccountSession σ id t).2 := by
  rcases hg : getAccountSession σ id t with ⟨a, σ'⟩
  cases a <;> simp [validateSessionKeys, hg]

/-- `getAccountSession` preserves the consumed invariant. -/
lemma consumedAll_getState {σ : SessionStore} {id : String}
    (h : consumedAll σ id = true) (sid : String) (t : Nat) :
    consumedAll (getAccountSession σ sid t).2 id = true := by
  cases hg : storeGet σ sid with
  | none => simpa [getAccountSession, hg] using h
  | some s =>
    by_cases hexp : s.expiresAt < t
    · simp [getAccountSession, hg, hexp]
      exact consumedAll_erase h sid
    · simpa [getAccountSession, hg, hexp] using h

/-- Every session-storage call preserves the consumed invariant, provided a
create never reuses the consumed id (randomUUID uniqueness). -/
lemma consumedAll_applyOp (op : SessionOp) {σ : SessionStore} {id : String}
    (h : consumedAll σ id = true)
    (hop : match op with
           | .create id2 _ _ _ _ => id2 ≠ id
           | _ => True) :
    consumedAll (applyOp op σ) id = true := by
  cases op with
  | create id2 u pk cr t =>
    exact consumedAll_set h id2 _ (Or.inl hop)
  | get sid t =>
    exact consumedAll_getState h sid t
  | markUsed sid t =>
    cases hg : storeGet σ sid with
    | none => simpa [applyOp, markSessionAsUsed, hg] using h
    | some s =>
      by_cases hc : s.used = true ∨ s.expiresAt < t
      · simpa [applyOp, markSessionAsUsed, hg, hc] using h
      · simp [applyOp, markSessionAsUsed, hg, hc]
        exact consumedAll_set h sid _ (Or.inr rfl)
  | validateKeys sid pk t =>
    show consumedAll (validateSessionKeys σ sid pk t).2 id = true
    rw [validateSessionKeys_state]
    exact consumedAll_getState h sid t
  | cleanup t =>
    exact consumedAll_filter σ id _ h
  | expire sid =>
    exact consumedAll_erase h sid

/-- A run of session-storage calls preserves the consumed invariant. -/
lemma consumedAll_runOps (ops : List SessionOp) (σ : SessionStore) {id : String}
    (h : consumedAll σ id = true) (hav : avoidsCreate ops id = true) :
    consumedAll (runOps ops σ) id = true := by
  induction ops generalizing σ with
  | nil => exact h
  | cons op rest ih =>
    rw [avoidsCreate, List.all_cons, Bool.and_eq_true] at hav
    refine ih _ (consumedAll_applyOp op h ?_) hav.2
    have h1 := hav.1
    cases op <;> simp_all [bne_iff_ne]

/-- A live, unused reservation is consumed on the spot, returning true. -/
lemma markSessionAsUsed_fresh {σ : SessionStore} {id : String} {s : AccountSession}
    {t : Nat} (hget : storeGet σ id = some s) (hu : s.used = false)
    (hl : ¬ s.expiresAt < t) :
    markSessionAsUsed σ id t = (true, storeSet σ id { s with used := true }) := by
  simp [markSessionAsUsed, hget, hu, hl]

/-! ### Session fixtures -/

/-- A concrete public-key bundle. -/
def exPk : GeneratedPubKeys :=
  { owner := "STMo", active := "STMa", posting := "STMp", memo := "STMm" }

/-- A live, unused reservation created at time 0 (expires at 900000). -/
def exLiveSession : AccountSession :=
  { sessionId := "sid-1", username := "alice", pubkeys := exPk,
    createdAt := 0, expiresAt := 900000, used := false,
    creatorAccount := "skatehive" }

/-- The same reservation after consumption. -/
def exUsedSession : AccountSession :=
  { exLiveSession with used := true }

/-- Reduction of the `/create-claimed-account` handler on a valid session:
live, unused, name and keys matching.  The session is consumed and the tail
(`broadcast` then best-effort escrow) decides the response. -/
lemma createClaimedAccountRoute_valid_session
    (σ : SessionStore) (cache : EmergencyCache) (req : CreateClaimedAccountRequest)
    (now : Nat) (av : Bool) (bc : Except String String) (f : Bool)
    (sid : String) (s : AccountSession)
    (hcond : sessionBranchCond req = true) (hsid : req.session_id = some sid)
    (hget : storeGet σ sid = some s) (hu : s.used = false)
    (hl : ¬ s.expiresAt < now)
    (hn : s.username = req.new_account_name) (hk : s.pubkeys = reqPubkeys req) :
    createClaimedAccountRoute σ cache req now av bc f =
      ((finishCreate cache req bc now f).1,
       storeSet σ sid { s with used := true },
       (finishCreate cache req bc now f).2) := by
  have hga : getAccountSession σ sid now = (some s, σ) := by
    simp [getAccountSession, hget, hl]
  have hv : validateSessionKeys σ sid (reqPubkeys req) now = (true, σ) := by
    simp [validateSessionKeys, hga, (pubkeysMatch_iff _ _).mpr hk]
  have hm : markSessionAsUsed σ sid now = (true, storeSet σ sid { s with used := true }) :=
    markSessionAsUsed_fresh hget hu hl
  simp [createClaimedAccountRoute, hcond, hsid, hga, hu, hn, hv, hm]

/-! ### Claim C2: single-use consumption -/

/-- C2: on a live, unused reservation, `markSessionAsUsed` returns true; the
reservation is then consumed, stays consumed across any sequence of
session-storage calls (provided `randomUUID` never reuses the id), every
later `markSessionAsUsed` — at any time — returns false, and in particular
a session-based finalize whose broadcast fails leaves the reservation
consumed. -/
theorem markSessionAsUsed_single_use
    (σ : SessionStore) (id : String) (s : AccountSession) (t₁ t₂ : Nat)
    (ops : List SessionOp)
    (hget : storeGet σ id = some s) (hunused : s.used = false)
    (hlive : t₁ ≤ s.expiresAt) (hfresh : avoidsCreate ops id = true) :
    (markSessionAsUsed σ id t₁).1 = true ∧
    consumedAll (runOps ops (markSessionAsUsed σ id t₁).2) id = true ∧
    (markSessionAsUsed (runOps ops (markSessionAsUsed σ id t₁).2) id t₂).1 = false ∧
    (∀ (cache : EmergencyCache) (req : CreateClaimedAccountRequest) (e : String)
        (av f : Bool),
      sessionBranchCond req = true → req.session_id = some id →
      s.username = req.new_account_name → s.pubkeys = reqPubkeys req →
      consumedAll (createClaimedAccountRoute σ cache req t₁ av (.error e) f).2.1 id
        = true) := by
  have hl : ¬ s.expiresAt < t₁ := Nat.not_lt.mpr hlive
  have h1 := markSessionAsUsed_fresh hget hunused hl
  have h2 : consumedAll (markSessionAsUsed σ id t₁).2 id = true := by
    rw [h1]
    exact consumedAll_storeSet_self σ id _ rfl
  have h3 := consumedAll_runOps ops _ h2 hfresh
  refine ⟨by rw [h1], h3, markSessionAsUsed_consumed h3 t₂, ?_⟩
  intro cache req e av f hcond hsid hn hk
  rw [createClaimedAccountRoute_valid_session σ cache req t₁ av (.error e) f id s
    hcond hsid hget hunused hl hn hk]
  exact consumedAll_storeSet_self σ id _ rfl

/-- A concrete interleaving of later store calls (reads, sweeps, timeouts,
fresh creates). -/
def exOps : List SessionOp :=
  [.get "sid-1" 100, .cleanup 200, .expire "sid-other",
   .create "sid-2" "bob" exPk "skatehive" 300, .markUsed "sid-1" 400]

/-- Witness for C2 at concrete inputs. -/
theorem markSessionAsUsed_single_use_witness :
    (markSessionAsUsed [("sid-1", exLiveSession)] "sid-1" 50).1 = true ∧
    consumedAll
      (runOps exOps (markSessionAsUsed [("sid-1", exLiveSession)] "sid-1" 50).2)
      "sid-1" = true ∧
    (markSessionAsUsed
      (runOps exOps (markSessionAsUsed [("sid-1", exLiveSession)] "sid-1" 50).2)
      "sid-1" 60).1 = false := by
  obtain ⟨h1, h2, h3, _⟩ :=
    markSessionAsUsed_single_use [("sid-1", exLiveSession)] "sid-1"
      exLiveSession 50 60 exOps (by decide) rfl (by decide) (by decide)
  exact ⟨h1, h2, h3⟩

/-! ### Claim C3: `validateSessionKeys` -/

/-- C3 (counterexample): `validateSessionKeys` does not consult the `used`
flag — on a live but already-used reservation with exactly matching keys it
returns true, contradicting the claim that it returns false once the
reservation is used. -/
theorem validateSessionKeys_ignores_used_flag :
    storeGet [("sid-1", exUsedSession)] "sid-1" = some exUsedSession ∧
    exUsedSession.used = true ∧
    (50 : Nat) ≤ exUsedSession.expiresAt ∧
    (validateSessionKeys [("sid-1", exUsedSession)] "sid-1"
      exUsedSession.pubkeys 50).1 = true := by
  refine ⟨by decide, rfl, by decide, by decide⟩

/-- C3 (amended): `validateSessionKeys` returns true iff a present,
unexpired reservation exists at `id` whose stored public keys equal the
supplied mapping exactly — the `used` flag is not consulted.  In particular
it returns false when any single role key differs from the stored bundle. -/
theorem validateSessionKeys_live_key_equality (σ : SessionStore) (id : String)
    (pk : GeneratedPubKeys) (now : Nat) :
    (validateSessionKeys σ id pk now).1 = true ↔
    ∃ s, storeGet σ id = some s ∧ now ≤ s.expiresAt ∧ s.pubkeys = pk := by
  cases hg : storeGet σ id with
  | none => simp [validateSessionKeys, getAccountSession, hg]
  | some s =>
    by_cases hexp : s.expiresAt < now
    · have hv : validateSessionKeys σ id pk now = (false, storeErase σ id) := by
        simp [validateSessionKeys, getAccountSession, hg, hexp]
      rw [hv]
      constructor
      · intro h
        exact absurd h (by simp)
      · rintro ⟨s', hs', hle, hpk⟩
        injection hs' with h'
        subst h'
        exact absurd hle (Nat.not_le.mpr hexp)
    · have hv : validateSessionKeys σ id pk now = (pubkeysMatch s.pubkeys pk, σ) := by
        simp [validateSessionKeys, getAccountSession, hg, hexp]
      rw [hv]
      simp only [pubkeysMatch_iff]
      constructor
      · intro h
        exact ⟨s, rfl, Nat.not_lt.mp hexp, h⟩
      · rintro ⟨s', hs', _, hpk⟩
        injection hs' with h'
        subst h'
        exact hpk

/-! ### Claim C7: lazy expiry on read -/

/-- C7: a read strictly after `expiresAt` behaves as not-found and removes
the stored record, with no condition on the `used` flag and no prior sweep. -/
theorem getAccountSession_lazy_expiry (σ : SessionStore) (id : String)
    (s : AccountSession) (now : Nat)
    (hget : storeGet σ id = some s) (hexp : s.expiresAt < now) :
    (getAccountSession σ id now).1 = none ∧
    storeGet (getAccountSession σ id now).2 id = none := by
  have h : getAccountSession σ id now = (none, storeErase σ id) := by
    simp [getAccountSession, hget, hexp]
  rw [h]
  exact ⟨rfl, storeGet_erase_self σ id⟩

/-- Witness for C7: a never-swept, never-used reservation read one
millisecond after expiry. -/
theorem getAccountSession_lazy_expiry_witness :
    (getAccountSession [("sid-1", exLiveSession)] "sid-1" 900001).1 = none ∧
    storeGet (getAccountSession [("sid-1", exLiveSession)] "sid-1" 900001).2
      "sid-1" = none :=
  getAccountSession_lazy_expiry _ "sid-1" exLiveSession 900001 (by decide) (by decide)

/-! ### Handler fixtures -/

/-- A single-key authority, as built by `createAuthority`. -/
def exAuth (k : String) : Authority :=
  { weight_threshold := 1, account_auths := [], key_auths := [(k, 1)] }

/-- A concrete confirmed session-based finalize request matching `exPk`. -/
def exReq : CreateClaimedAccountRequest :=
  { session_id := some "sid-1", confirmed := some true,
    new_account_name := "alice", owner := exAuth "STMo",
    active := exAuth "STMa", posting := exAuth "STMp", memo_key := "STMm",
    json_metadata := "\x7b\x7d", private_keys := none }

/-- The same request with `confirmed` explicitly false. -/
def exReqUnconfirmed : CreateClaimedAccountRequest :=
  { exReq with confirmed := some false }

/-- Concrete request-supplied private keys. -/
def exPrivKeys : KeySet :=
  { owner := "5Jo", active := "5Ja", posting := "5Jp", memo := "5Jm" }

/-- The finalize request carrying private keys for emergency escrow. -/
def exReqWithKeys : CreateClaimedAccountRequest :=
  { exReq with private_keys := some exPrivKeys }

/-- The emergency record written by the Prepare that issued `sid-1`. -/
def prepRec : StoredAccountKeys :=
  { accountName := "alice", transactionId := "session-sid-1", createdAt := 0,
    keys := exPrivKeys, publicKeys := exPk, status := .created }

/-- The emergency record the finalize handler writes after a successful
broadcast, when the request carries private keys. -/
def finalizeRec (req : CreateClaimedAccountRequest) (tx : String) (now : Nat)
    (pk : KeySet) : StoredAccountKeys :=
  { accountName := req.new_account_name, transactionId := tx,
    createdAt := now, keys := pk, publicKeys := reqPubkeys req,
    status := .created }

/-- On broadcast success the tail of the handler returns the transaction id
and prepends at most one new `created` record correlated by that id. -/
lemma finishCreate_ok (cache : EmergencyCache) (req : CreateClaimedAccountRequest)
    (tx : String) (now : Nat) (f : Bool) :
    (finishCreate cache req (.ok tx) now f).1 = .success tx ∧
    ∃ pre, (finishCreate cache req (.ok tx) now f).2 = pre ++ cache ∧
      ∀ r ∈ pre, r.transactionId = tx ∧ r.status = .created := by
  constructor
  · simp [finishCreate]
  · cases hpk : req.private_keys with
    | none => exact ⟨[], by simp [finishCreate, hpk], by simp⟩
    | some pk =>
      by_cases hc : (pk.owner != "" && pk.active != "" &&
          pk.posting != "" && pk.memo != "") = true
      · cases f with
        | true =>
          exact ⟨[], by simp [finishCreate, hpk, hc, storeEmergencyKeys,
            writeEmergencyFile], by simp⟩
        | false =>
          refine ⟨[finalizeRec req tx now pk], ?_, ?_⟩
          · simp [finishCreate, finalizeRec, hpk, hc, storeEmergencyKeys,
              writeEmergencyFile]
          · intro r hr
            rcases List.mem_singleton.mp hr with rfl
            exact ⟨rfl, rfl⟩
      · exact ⟨[], by simp [finishCreate, hpk, hc], by simp⟩

/-! ### Claim C1: rejection taxonomy of session-based finalize -/

/-- C1 (counterexample): a live but already-used reservation is rejected
with the distinct `Session Already Used` response, not the uniform
`Invalid Session` one used for missing and expired ids, so a caller can
distinguish an already-used id from a missing or expired id. -/
theorem finalize_used_is_distinguishable :
    (createClaimedAccountRoute [("sid-1", exUsedSession)] [] exReq 50 true
      (.ok "tx-1") false).1 = .sessionAlreadyUsed ∧
    (createClaimedAccountRoute [] [] exReq 50 true
      (.ok "tx-1") false).1 = .invalidSession ∧
    respBody .sessionAlreadyUsed ≠ respBody .invalidSession := by
  decide

/-- C1 (amended): a missing id and an expired id both produce the uniform
`Invalid Session` rejection (indistinguishable from each other), but a
live, already-used reservation produces the distinct `Session Already Used`
rejection, whose response body differs. -/
theorem finalize_session_rejection
    (σ : SessionStore) (cache : EmergencyCache) (req : CreateClaimedAccountRequest)
    (now : Nat) (av : Bool) (bc : Except String String) (f : Bool) (sid : String)
    (hcond : sessionBranchCond req = true) (hsid : req.session_id = some sid) :
    (storeGet σ sid = none →
      (createClaimedAccountRoute σ cache req now av bc f).1 = .invalidSession) ∧
    (∀ s, storeGet σ sid = some s → s.expiresAt < now →
      (createClaimedAccountRoute σ cache req now av bc f).1 = .invalidSession) ∧
    (∀ s, storeGet σ sid = some s → ¬ s.expiresAt < now → s.used = true →
      (createClaimedAccountRoute σ cache req now av bc f).1 = .sessionAlreadyUsed) ∧
    respBody .sessionAlreadyUsed ≠ respBody .invalidSession := by
  refine ⟨?_, ?_, ?_, by decide⟩
  · intro hg
    have hga : getAccountSession σ sid now = (none, σ) := by
      simp [getAccountSession, hg]
    simp [createClaimedAccountRoute, hcond, hsid, hga]
  · intro s hg hexp
    have hga : getAccountSession σ sid now = (none, storeErase σ sid) := by
      simp [getAccountSession, hg, hexp]
    simp [createClaimedAccountRoute, hcond, hsid, hga]
  · intro s hg hexp hu
    have hga : getAccountSession σ sid now = (some s, σ) := by
      simp [getAccountSession, hg, hexp]
    simp [createClaimedAccountRoute, hcond, hsid, hga, hu]

/-- Witness for C1: all three rejection shapes at concrete inputs. -/
theorem finalize_session_rejection_witness :
    (createClaimedAccountRoute [] [] exReq 50 true (.ok "tx-1") false).1
      = .invalidSession ∧
    (createClaimedAccountRoute [("sid-1", exLiveSession)] [] exReq 950000 true
      (.ok "tx-1") false).1 = .invalidSession ∧
    (createClaimedAccountRoute [("sid-1", exUsedSession)] [] exReq 50 true
      (.ok "tx-1") false).1 = .sessionAlreadyUsed := by
  refine ⟨?_, ?_, ?_⟩
  · exact (finalize_session_rejection [] [] exReq 50 true (.ok "tx-1") false
      "sid-1" (by decide) rfl).1 (by decide)
  · exact (finalize_session_rejection [("sid-1", exLiveSession)] [] exReq 950000
      true (.ok "tx-1") false "sid-1" (by decide) rfl).2.1 exLiveSession
      (by decide) (by decide)
  · exact (finalize_session_rejection [("sid-1", exUsedSession)] [] exReq 50
      true (.ok "tx-1") false "sid-1" (by decide) rfl).2.2.1 exUsedSession
      (by decide) (by decide) rfl

/-! ### Claim C5: post-broadcast behaviour of session-based finalize -/

/-- C5 (counterexample): a successful session-based finalize returns the
transaction id but leaves the Prepare-time emergency record untouched with
status `created` — no record is marked `delivered`, contradicting the claim
that the Prepare record is marked delivered on broadcast success. -/
theorem finalize_does_not_mark_delivered :
    (createClaimedAccountRoute [("sid-1", exLiveSession)] [prepRec] exReq 50
      true (.ok "tx-1") false).1 = .success "tx-1" ∧
    (createClaimedAccountRoute [("sid-1", exLiveSession)] [prepRec] exReq 50
      true (.ok "tx-1") false).2.2 = [prepRec] ∧
    prepRec.status = .created ∧
    (∀ r ∈ (createClaimedAccountRoute [("sid-1", exLiveSession)] [prepRec]
      exReq 50 true (.ok "tx-1") false).2.2, r.status ≠ RecStatus.delivered) := by
  decide

/-- C5 (amended): on a session-based finalize whose broadcast succeeds, the
transaction id is returned and the reservation is consumed, but the
Emergency Cache record written by Prepare is not marked delivered: every
pre-existing record is left exactly as stored, and at most one new record
(status `created`, correlated by the new transaction id, written only when
the request itself carries private keys) is prepended.  Marking records
`delivered` happens only through the separate manual admin operation
`markKeysAsDelivered`, which this handler never invokes. -/
theorem finalize_success_returns_tx_without_delivery
    (σ : SessionStore) (cache : EmergencyCache) (req : CreateClaimedAccountRequest)
    (now : Nat) (av : Bool) (f : Bool) (sid tx : String) (s : AccountSession)
    (hcond : sessionBranchCond req = true) (hsid : req.session_id = some sid)
    (hget : storeGet σ sid = some s) (hu : s.used = false)
    (hl : ¬ s.expiresAt < now)
    (hn : s.username = req.new_account_name) (hk : s.pubkeys = reqPubkeys req) :
    (createClaimedAccountRoute σ cache req now av (.ok tx) f).1 = .success tx ∧
    consumedAll (createClaimedAccountRoute σ cache req now av (.ok tx) f).2.1 sid
      = true ∧
    ∃ pre, (createClaimedAccountRoute σ cache req now av (.ok tx) f).2.2
        = pre ++ cache ∧
      ∀ r ∈ pre, r.transactionId = tx ∧ r.status = .created := by
  rw [createClaimedAccountRoute_valid_session σ cache req now av (.ok tx) f sid s
    hcond hsid hget hu hl hn hk]
  obtain ⟨h1, h2⟩ := finishCreate_ok cache req tx now f
  exact ⟨h1, consumedAll_storeSet_self σ sid _ rfl, h2⟩

/-- Witness for C5 at concrete inputs (request carrying private keys). -/
theorem finalize_success_returns_tx_without_delivery_witness :
    (createClaimedAccountRoute [("sid-1", exLiveSession)] [prepRec]
      exReqWithKeys 50 true (.ok "tx-1") false).1 = .success "tx-1" ∧
    consumedAll (createClaimedAccountRoute [("sid-1", exLiveSession)] [prepRec]
      exReqWithKeys 50 true (.ok "tx-1") false).2.1 "sid-1" = true ∧
    ∃ pre, (createClaimedAccountRoute [("sid-1", exLiveSession)] [prepRec]
        exReqWithKeys 50 true (.ok "tx-1") false).2.2 = pre ++ [prepRec] ∧
      ∀ r ∈ pre, r.transactionId = "tx-1" ∧ r.status = .created :=
  finalize_success_returns_tx_without_delivery [("sid-1", exLiveSession)]
    [prepRec] exReqWithKeys 50 true false "sid-1" "tx-1" exLiveSession
    (by decide) rfl (by decide) rfl (by decide) rfl (by decide)

/-! ### Claim C8: emergency storage failures never block Prepare -/

/-- C8: `storeEmergencyKeys` never propagates a storage failure — it either
appends the record or, on an internal write fault, returns the cache
unchanged — and the `/prepare-account` handler under a faulting emergency
store still returns the full success payload (private keys, public keys,
session id and expiry), writes nothing to the cache, and leaves the session
store exactly as in the non-faulting run. -/
theorem storeEmergencyKeys_nonblocking
    (σ : SessionStore) (cache : EmergencyCache) (req : PrepareAccountRequest)
    (now : Nat) (c : Crypto) (randHex sid : String) :
    (∀ (cache' : EmergencyCache) (fault : Bool) (rec : StoredAccountKeys),
      storeEmergencyKeys cache' fault rec = cache' ∨
      storeEmergencyKeys cache' fault rec = rec :: cache') ∧
    (prepareAccountRoute σ cache req now true c randHex sid true).1 =
      .success (generateAccountKeys c req.new_account_name none randHex).1
        (generateAccountKeys c req.new_account_name none randHex).2 sid
        (now + SESSION_EXPIRY_MS) ∧
    (prepareAccountRoute σ cache req now true c randHex sid true).2.2 = cache ∧
    (prepareAccountRoute σ cache req now true c randHex sid true).2.1 =
      (prepareAccountRoute σ cache req now true c randHex sid false).2.1 := by
  refine ⟨?_, rfl, rfl, rfl⟩
  intro cache' fault rec
  cases fault with
  | false => exact Or.inr rfl
  | true => exact Or.inl rfl

/-! ### Claim C10: unconfirmed session id falls back to direct mode -/

/-- C10: a request that carries a `session_id` but whose `confirmed` field
is absent or false takes the direct (one-phase) path: the session store is
neither consulted (the response is identical for every store) nor modified,
the reservation is not consumed, and the outcome is the availability check
followed by the broadcast tail. -/
theorem direct_mode_when_not_confirmed
    (σ : SessionStore) (cache : EmergencyCache) (req : CreateClaimedAccountRequest)
    (now : Nat) (av : Bool) (bc : Except String String) (f : Bool) (sid : String)
    (_hsid : req.session_id = some sid) (hconf : req.confirmed ≠ some true) :
    (createClaimedAccountRoute σ cache req now av bc f).2.1 = σ ∧
    (av = false →
      createClaimedAccountRoute σ cache req now av bc f = (.nameTaken, σ, cache)) ∧
    (av = true →
      createClaimedAccountRoute σ cache req now av bc f =
        ((finishCreate cache req bc now f).1, σ, (finishCreate cache req bc now f).2)) ∧
    (∀ σ' : SessionStore,
      (createClaimedAccountRoute σ' cache req now av bc f).1 =
      (createClaimedAccountRoute σ cache req now av bc f).1) := by
  have hb : (req.confirmed == some true) = false := beq_eq_false_iff_ne.mpr hconf
  have hcond : sessionBranchCond req = false := by
    simp [sessionBranchCond, hb]
  have hrun : ∀ σ'' : SessionStore,
      createClaimedAccountRoute σ'' cache req now av bc f =
        if av = false then (.nameTaken, σ'', cache)
        else ((finishCreate cache req bc now f).1, σ'',
              (finishCreate cache req bc now f).2) := by
    intro σ''
    simp [createClaimedAccountRoute, hcond]
  refine ⟨?_, ?_, ?_, ?_⟩
  · rw [hrun σ]
    cases av <;> simp
  · intro hav
    rw [hrun σ, hav]
    simp
  · intro hav
    rw [hrun σ, hav]
    simp
  · intro σ'
    rw [hrun σ, hrun σ']
    cases av <;> simp

/-- Witness for C10: the confirmed-false request leaves a populated session
store untouched and runs the direct tail. -/
theorem direct_mode_when_not_confirmed_witness :
    (createClaimedAccountRoute [("sid-1", exLiveSession)] [] exReqUnconfirmed
      50 true (.ok "tx-1") false).2.1 = [("sid-1", exLiveSession)] ∧
    createClaimedAccountRoute [("sid-1", exLiveSession)] [] exReqUnconfirmed
      50 true (.ok "tx-1") false =
      ((finishCreate [] exReqUnconfirmed (.ok "tx-1") 50 false).1,
       [("sid-1", exLiveSession)],
       (finishCreate [] exReqUnconfirmed (.ok "tx-1") 50 false).2) := by
  obtain ⟨h1, _, h3, _⟩ :=
    direct_mode_when_not_confirmed [("sid-1", exLiveSession)] []
      exReqUnconfirmed 50 true (.ok "tx-1") false "sid-1" rfl (by decide)
  exact ⟨h1, h3 rfl⟩

end AccountManager
